import Mathlib

/-!
Shallow embedding of `train.py` from the `tf_classification` repository.

The script selects learning-rate schedules and optimizers from configuration
strings, filters variable lists by scope, decides how to initialise from
a pretrained checkpoint, and wires the training graph together.  We model the
configuration record, the framework constructors as inductive values, Python
exceptions as an `Except` error type, and the filesystem / variable collections
the script consults as explicit parameters.
-/

deriving instance DecidableEq for Except

namespace TfClassification

/-- Python exceptions that the embedded fragments of `train.py` can raise.
`ValueError` in the source is raised with two arguments, a format string and
the offending configuration value; we keep both. -/
inductive PyErr where
  | zeroDivisionError : PyErr
  | valueError (fmt : String) (value : String) : PyErr
  deriving DecidableEq

/-- The `SESSION_CONFIG` sub-record of the configuration
(`cfg.SESSION_CONFIG.*` in `train`). -/
structure SessionConfig where
  LOG_DEVICE_PLACEMENT : Bool
  PER_PROCESS_GPU_MEMORY_FRACTION : ℚ
  deriving DecidableEq

/-- The configuration record (`cfg`, an EasyDict parsed from the config file).
Every field read anywhere in `train.py` is present.  Numeric values are
modelled as `ℕ`/`ℚ`; the `IMAGE_PROCESSING` sub-configuration is never
inspected by `train.py` (it is passed through to `inputs.input_nodes`), so it
is kept abstract in the type parameter `ι`. -/
structure Config (ι : Type) where
  NUM_TRAIN_EXAMPLES : ℕ
  BATCH_SIZE : ℕ
  NUM_EPOCHS_PER_DELAY : ℚ
  LEARNING_RATE_DECAY_TYPE : String
  INITIAL_LEARNING_RATE : ℚ
  LEARNING_RATE_DECAY_FACTOR : ℚ
  LEARNING_RATE_STAIRCASE : Bool
  END_LEARNING_RATE : ℚ
  OPTIMIZER : String
  ADADELTA_RHO : ℚ
  OPTIMIZER_EPSILON : ℚ
  ADAGRAD_INITIAL_ACCUMULATOR_VALUE : ℚ
  ADAM_BETA1 : ℚ
  ADAM_BETA2 : ℚ
  FTRL_LEARNING_RATE_POWER : ℚ
  FTRL_INITIAL_ACCUMULATOR_VALUE : ℚ
  FTRL_L1 : ℚ
  FTRL_L2 : ℚ
  MOMENTUM : ℚ
  RMSPROP_DECAY : ℚ
  IMAGE_PROCESSING : ι
  NUM_INPUT_THREADS : ℕ
  SHUFFLE_QUEUE : Bool
  RANDOM_SEED : ℕ
  QUEUE_CAPACITY : ℕ
  QUEUE_MIN : ℕ
  NUM_CLASSES : ℕ
  MODEL_NAME : String
  WEIGHT_DECAY : ℚ
  BATCHNORM_MOVING_AVERAGE_DECAY : ℚ
  BATCHNORM_EPSILON : ℚ
  DROPOUT_KEEP_PROB : ℚ
  MOVING_AVERAGE_DECAY : ℚ
  SESSION_CONFIG : SessionConfig
  MAX_TO_KEEP : ℕ
  KEEP_CHECKPOINT_EVERY_N_HOURS : ℚ
  NUM_TRAIN_ITERATIONS : ℕ
  SAVE_SUMMARY_SECS : ℕ
  SAVE_INTERVAL_SECS : ℕ
  LOG_EVERY_N_STEPS : ℕ

/-- The learning-rate tensors that `_configure_learning_rate` can build:
`tf.train.exponential_decay`, `tf.constant`, `tf.train.polynomial_decay`,
each with the arguments the source passes (the `global_step` tensor argument,
identical in all branches, is left implicit). -/
inductive LearningRate where
  | exponentialDecay (learningRate : ℚ) (decaySteps : ℤ) (decayFactor : ℚ)
      (staircase : Bool) (name : String) : LearningRate
  | constant (value : ℚ) (name : String) : LearningRate
  | polynomialDecay (learningRate : ℚ) (decaySteps : ℤ) (endLearningRate : ℚ)
      (power : ℚ) (cycle : Bool) (name : String) : LearningRate
  deriving DecidableEq

/-- Python's `int(...)` applied to a (true-division) quotient: truncation
toward zero. -/
def pyInt (q : ℚ) : ℤ := if 0 ≤ q then ⌊q⌋ else ⌈q⌉

/-- `_configure_learning_rate(global_step, cfg)` (train.py lines 36-71).
`decay_steps = int(cfg.NUM_TRAIN_EXAMPLES / cfg.BATCH_SIZE * cfg.NUM_EPOCHS_PER_DELAY)`
is evaluated before the branch on `cfg.LEARNING_RATE_DECAY_TYPE`; in Python
the true division raises `ZeroDivisionError` when `cfg.BATCH_SIZE == 0`,
which we make explicit because division on `ℚ` is total. -/
def configure_learning_rate {ι : Type} (cfg : Config ι) : Except PyErr LearningRate :=
  if cfg.BATCH_SIZE = 0 then
    .error .zeroDivisionError
  else
    let decay_steps : ℤ :=
      pyInt ((cfg.NUM_TRAIN_EXAMPLES : ℚ) / (cfg.BATCH_SIZE : ℚ) * cfg.NUM_EPOCHS_PER_DELAY)
    if cfg.LEARNING_RATE_DECAY_TYPE = "exponential" then
      .ok (.exponentialDecay cfg.INITIAL_LEARNING_RATE decay_steps
            cfg.LEARNING_RATE_DECAY_FACTOR cfg.LEARNING_RATE_STAIRCASE
            "exponential_decay_learning_rate")
    else if cfg.LEARNING_RATE_DECAY_TYPE = "fixed" then
      .ok (.constant cfg.INITIAL_LEARNING_RATE "fixed_learning_rate")
    else if cfg.LEARNING_RATE_DECAY_TYPE = "polynomial" then
      .ok (.polynomialDecay cfg.INITIAL_LEARNING_RATE decay_steps
            cfg.END_LEARNING_RATE 1 false "polynomial_decay_learning_rate")
    else
      .error (.valueError "learning_rate_decay_type [%s] was not recognized"
               cfg.LEARNING_RATE_DECAY_TYPE)

/-- The optimizer objects that `_configure_optimizer` can build, with exactly
the constructor arguments the source passes.  `α` is the type of the
learning-rate value handed to every constructor. -/
inductive Optimizer (α : Type) where
  | adadelta (learningRate : α) (rho : ℚ) (epsilon : ℚ) : Optimizer α
  | adagrad (learningRate : α) (initialAccumulatorValue : ℚ) : Optimizer α
  | adam (learningRate : α) (beta1 : ℚ) (beta2 : ℚ) (epsilon : ℚ) : Optimizer α
  | ftrl (learningRate : α) (learningRatePower : ℚ) (initialAccumulatorValue : ℚ)
      (l1RegularizationStrength : ℚ) (l2RegularizationStrength : ℚ) : Optimizer α
  | momentum (learningRate : α) (momentum : ℚ) (name : String) : Optimizer α
  | rmsprop (learningRate : α) (decay : ℚ) (momentum : ℚ) (epsilon : ℚ) : Optimizer α
  | gradientDescent (learningRate : α) : Optimizer α
  deriving DecidableEq

/-- `_configure_optimizer(learning_rate, cfg)` (train.py lines 74-120). -/
def configure_optimizer {ι α : Type} (learning_rate : α) (cfg : Config ι) :
    Except PyErr (Optimizer α) :=
  if cfg.OPTIMIZER = "adadelta" then
    .ok (.adadelta learning_rate cfg.ADADELTA_RHO cfg.OPTIMIZER_EPSILON)
  else if cfg.OPTIMIZER = "adagrad" then
    .ok (.adagrad learning_rate cfg.ADAGRAD_INITIAL_ACCUMULATOR_VALUE)
  else if cfg.OPTIMIZER = "adam" then
    .ok (.adam learning_rate cfg.ADAM_BETA1 cfg.ADAM_BETA2 cfg.OPTIMIZER_EPSILON)
  else if cfg.OPTIMIZER = "ftrl" then
    .ok (.ftrl learning_rate cfg.FTRL_LEARNING_RATE_POWER
          cfg.FTRL_INITIAL_ACCUMULATOR_VALUE cfg.FTRL_L1 cfg.FTRL_L2)
  else if cfg.OPTIMIZER = "momentum" then
    .ok (.momentum learning_rate cfg.MOMENTUM "Momentum")
  else if cfg.OPTIMIZER = "rmsprop" then
    .ok (.rmsprop learning_rate cfg.RMSPROP_DECAY cfg.MOMENTUM cfg.OPTIMIZER_EPSILON)
  else if cfg.OPTIMIZER = "sgd" then
    .ok (.gradientDescent learning_rate)
  else
    .error (.valueError "Optimizer [%s] was not recognized" cfg.OPTIMIZER)

/-- Python's `str.strip()`: remove leading and trailing whitespace. -/
def pyStrip (s : String) : String :=
  String.mk (((s.data.dropWhile Char.isWhitespace).reverse.dropWhile
    Char.isWhitespace).reverse)

/-- Python's `s.startswith(p)`: `p` is a leading substring of `s`. -/
def pyStartswith (s p : String) : Bool :=
  List.isPrefixOf p.data s.data

/-- `get_trainable_variables(trainable_scopes)` (train.py lines 122-137).
The graph's collection of trainable variables is modelled by the list
`trainable_variables` of variable names;
`tf.get_collection(tf.GraphKeys.TRAINABLE_VARIABLES, scope)` returns the
members of that collection whose names the scope matches from the start. -/
def get_trainable_variables (trainable_variables : List String)
    (trainable_scopes : Option (List String)) : List String :=
  match trainable_scopes with
  | none => trainable_variables
  | some scopes =>
    let scopes := scopes.map pyStrip
    scopes.flatMap fun scope =>
      trainable_variables.filter fun v => pyStartswith v scope

/-- The environment consulted by `get_init_function`: the graph's model
variables (op names, `slim.get_model_variables()`) and the filesystem
queries `tf.train.latest_checkpoint` and `os.path.isdir`. -/
structure World where
  model_variables : List String
  latest_checkpoint : String → Option String
  isDir : String → Bool

/-- The value returned by `get_init_function` when a restore is performed:
`slim.assign_from_checkpoint_fn(checkpoint_path, variables_to_restore,
ignore_missing_vars=False)`. -/
structure InitFn where
  checkpoint_path : String
  variables_to_restore : List String
  ignore_missing_vars : Bool
  deriving DecidableEq

/-- `get_init_function(logdir, pretrained_model_path, checkpoint_exclude_scopes)`
(train.py lines 140-193).  Returns `.ok none` for Python's `return None`. -/
def get_init_function (w : World) (logdir : String)
    (pretrained_model_path : Option String)
    (checkpoint_exclude_scopes : Option (List String)) :
    Except PyErr (Option InitFn) :=
  match pretrained_model_path with
  | none => .ok none
  | some path =>
    if (w.latest_checkpoint logdir).isSome then
      .ok none
    else
      let exclusions : List String :=
        match checkpoint_exclude_scopes with
        | none => []
        | some scopes => scopes.map pyStrip
      let variables_to_restore : List String :=
        w.model_variables.filter fun v =>
          !(exclusions.any fun exclusion => pyStartswith v exclusion)
      if w.isDir path then
        match w.latest_checkpoint path with
        | none =>
          .error (.valueError "No model checkpoint file found in directory %s" path)
        | some checkpoint_path =>
          .ok (some ⟨checkpoint_path, variables_to_restore, false⟩)
      else
        .ok (some ⟨path, variables_to_restore, false⟩)

/-- The graph-construction and bookkeeping calls made by `train`
(train.py lines 196-311), one constructor per call site. -/
inductive BuildStep where
  | getOrCreateGlobalStep
  | configureLearningRate
  | configureOptimizer
  | buildInputPipeline
  | oneHotEncodeLabels
  | buildNetwork
  | buildLoss
  | applyMovingAverages
  | selectTrainableVariables
  | createTrainOp
  | mergeSummaries
  | buildSessionConfig
  | createSaver
  | computeInitFn
  | delegateToSlimTraining
  deriving DecidableEq

open BuildStep in
/-- The sequence of calls `train` makes, in source order:
`slim.get_or_create_global_step` (line 213), `_configure_learning_rate`
(216), `_configure_optimizer` (219), `inputs.input_nodes` (221),
`slim.one_hot_encoding` (235), the `nets_factory` network (240-252), the
softmax cross-entropy losses and `tf.losses.get_total_loss` (255-263),
`ema.apply` (270-276), `get_trainable_variables` (278),
`slim.learning.create_train_op` (279), `tf.summary.merge` (282),
`tf.ConfigProto` (287), `tf.train.Saver` (295), `get_init_function` (303,
evaluated as an argument), and finally `slim.learning.train` (302). -/
def trainBuildTrace : List BuildStep :=
  [getOrCreateGlobalStep, configureLearningRate, configureOptimizer,
   buildInputPipeline, oneHotEncodeLabels, buildNetwork, buildLoss,
   applyMovingAverages, selectTrainableVariables, createTrainOp,
   mergeSummaries, buildSessionConfig, createSaver, computeInitFn,
   delegateToSlimTraining]

/-- `occursInOrder steps trace` holds when `steps` appears inside `trace` in
the given order (as a subsequence): "trace builds in the fixed sequence
`steps`". -/
def occursInOrder : List BuildStep → List BuildStep → Bool
  | [], _ => true
  | _ :: _, [] => false
  | s :: steps, t :: trace =>
    if s = t then occursInOrder steps trace else occursInOrder (s :: steps) trace

/-- The command-line arguments produced by `parse_args`
(train.py lines 313-362). -/
structure Args where
  tfrecords : List String
  logdir : String
  config_file : String
  pretrained_model : Option String
  trainable_scopes : Option (List String)
  checkpoint_exclude_scopes : Option (List String)
  max_number_of_steps : Option ℕ
  learning_rate_decay_type : Option String
  learning_rate : Option ℚ
  batch_size : Option ℕ
  model_name : Option String

/-- The configuration-override block of `main` (train.py lines 369-383):
each command-line value that is not `None` replaces the corresponding
configuration field. -/
def applyOverrides {ι : Type} (cfg : Config ι) (args : Args) : Config ι :=
  let cfg := match args.max_number_of_steps with
    | some v => { cfg with NUM_TRAIN_ITERATIONS := v }
    | none => cfg
  let cfg := match args.learning_rate_decay_type with
    | some v => { cfg with LEARNING_RATE_DECAY_TYPE := v }
    | none => cfg
  let cfg := match args.learning_rate with
    | some v => { cfg with INITIAL_LEARNING_RATE := v }
    | none => cfg
  let cfg := match args.batch_size with
    | some v => { cfg with BATCH_SIZE := v }
    | none => cfg
  let cfg := match args.model_name with
    | some v => { cfg with MODEL_NAME := v }
    | none => cfg
  cfg

/-! Concrete sample inputs used to instantiate the theorems below. -/

/-- A sample configuration with every field populated. -/
def baseCfg : Config Unit where
  NUM_TRAIN_EXAMPLES := 1000
  BATCH_SIZE := 32
  NUM_EPOCHS_PER_DELAY := 4
  LEARNING_RATE_DECAY_TYPE := "exponential"
  INITIAL_LEARNING_RATE := 1/100
  LEARNING_RATE_DECAY_FACTOR := 94/100
  LEARNING_RATE_STAIRCASE := true
  END_LEARNING_RATE := 1/10000
  OPTIMIZER := "rmsprop"
  ADADELTA_RHO := 95/100
  OPTIMIZER_EPSILON := 1/1000000
  ADAGRAD_INITIAL_ACCUMULATOR_VALUE := 1/10
  ADAM_BETA1 := 9/10
  ADAM_BETA2 := 999/1000
  FTRL_LEARNING_RATE_POWER := -1/2
  FTRL_INITIAL_ACCUMULATOR_VALUE := 1/10
  FTRL_L1 := 0
  FTRL_L2 := 0
  MOMENTUM := 9/10
  RMSPROP_DECAY := 9/10
  IMAGE_PROCESSING := ()
  NUM_INPUT_THREADS := 4
  SHUFFLE_QUEUE := true
  RANDOM_SEED := 1
  QUEUE_CAPACITY := 1000
  QUEUE_MIN := 100
  NUM_CLASSES := 10
  MODEL_NAME := "inception_v3"
  WEIGHT_DECAY := 4/100000
  BATCHNORM_MOVING_AVERAGE_DECAY := 9997/10000
  BATCHNORM_EPSILON := 1/1000
  DROPOUT_KEEP_PROB := 8/10
  MOVING_AVERAGE_DECAY := 9999/10000
  SESSION_CONFIG := ⟨false, 9/10⟩
  MAX_TO_KEEP := 3
  KEEP_CHECKPOINT_EVERY_N_HOURS := 1
  NUM_TRAIN_ITERATIONS := 10000
  SAVE_SUMMARY_SECS := 30
  SAVE_INTERVAL_SECS := 120
  LOG_EVERY_N_STEPS := 10

/-- Sample configuration with a given decay type. -/
def cfgDecay (s : String) : Config Unit := { baseCfg with LEARNING_RATE_DECAY_TYPE := s }

/-- Sample configuration with a given optimizer. -/
def cfgOpt (s : String) : Config Unit := { baseCfg with OPTIMIZER := s }

/-- Sample configuration with `BATCH_SIZE = 0` and the `fixed` decay type. -/
def cfgZeroFixed : Config Unit :=
  { baseCfg with BATCH_SIZE := 0, LEARNING_RATE_DECAY_TYPE := "fixed" }

/-- Sample configuration with `BATCH_SIZE = 0` and an unrecognized decay type. -/
def cfgZeroBad : Config Unit :=
  { baseCfg with BATCH_SIZE := 0, LEARNING_RATE_DECAY_TYPE := "unknown" }

/-- Sample configuration with unrecognized decay-type and optimizer strings. -/
def cfgBadStrings : Config Unit :=
  { baseCfg with LEARNING_RATE_DECAY_TYPE := "foo", OPTIMIZER := "bar" }

/-- Sample environment: `pre` is a directory holding a checkpoint, the log
directory `logs` holds none. -/
def wPre : World where
  model_variables := ["logits/weights", "conv1/weights", "conv1/biases"]
  latest_checkpoint := fun s => if s = "pre" then some "pre/model.ckpt-10" else none
  isDir := fun s => s = "pre"

/-- Sample environment: no checkpoint anywhere, `emptydir` is a directory. -/
def wEmptyDir : World where
  model_variables := ["conv1/weights"]
  latest_checkpoint := fun _ => none
  isDir := fun s => s = "emptydir"

/-- Sample environment: the log directory `logs` already holds a checkpoint,
and `emptydir` is a directory with no checkpoint in it. -/
def wLogCkpt : World where
  model_variables := ["conv1/weights"]
  latest_checkpoint := fun s => if s = "logs" then some "logs/model.ckpt-5" else none
  isDir := fun s => s = "emptydir"

/-! Theorems. -/

/-- C1 (amended): for every configuration with `BATCH_SIZE ≠ 0`,
`_configure_learning_rate` maps each recognized decay-type string to the
corresponding framework schedule constructor — `exponential` to
`tf.train.exponential_decay`, `fixed` to a constant tensor holding
`INITIAL_LEARNING_RATE`, `polynomial` to `tf.train.polynomial_decay` — with
both decaying branches passed
`decay_steps = int(NUM_TRAIN_EXAMPLES / BATCH_SIZE * NUM_EPOCHS_PER_DELAY)`. -/
theorem configure_learning_rate_maps {ι : Type} (cfg : Config ι)
    (hb : cfg.BATCH_SIZE ≠ 0) :
    (cfg.LEARNING_RATE_DECAY_TYPE = "exponential" →
      configure_learning_rate cfg = .ok (.exponentialDecay cfg.INITIAL_LEARNING_RATE
        (pyInt ((cfg.NUM_TRAIN_EXAMPLES : ℚ) / (cfg.BATCH_SIZE : ℚ) *
          cfg.NUM_EPOCHS_PER_DELAY))
        cfg.LEARNING_RATE_DECAY_FACTOR cfg.LEARNING_RATE_STAIRCASE
        "exponential_decay_learning_rate")) ∧
    (cfg.LEARNING_RATE_DECAY_TYPE = "fixed" →
      configure_learning_rate cfg =
        .ok (.constant cfg.INITIAL_LEARNING_RATE "fixed_learning_rate")) ∧
    (cfg.LEARNING_RATE_DECAY_TYPE = "polynomial" →
      configure_learning_rate cfg = .ok (.polynomialDecay cfg.INITIAL_LEARNING_RATE
        (pyInt ((cfg.NUM_TRAIN_EXAMPLES : ℚ) / (cfg.BATCH_SIZE : ℚ) *
          cfg.NUM_EPOCHS_PER_DELAY))
        cfg.END_LEARNING_RATE 1 false "polynomial_decay_learning_rate")) := by
  refine ⟨fun h => ?_, fun h => ?_, fun h => ?_⟩ <;>
    simp [configure_learning_rate, hb, h]

/-- Witness for C1: the three recognized decay types on concrete
configurations. -/
theorem configure_learning_rate_maps_witness :
    (cfgDecay "exponential").BATCH_SIZE ≠ 0 ∧
    configure_learning_rate (cfgDecay "exponential") =
      .ok (.exponentialDecay (cfgDecay "exponential").INITIAL_LEARNING_RATE
        (pyInt (((cfgDecay "exponential").NUM_TRAIN_EXAMPLES : ℚ) /
          ((cfgDecay "exponential").BATCH_SIZE : ℚ) *
          (cfgDecay "exponential").NUM_EPOCHS_PER_DELAY))
        (cfgDecay "exponential").LEARNING_RATE_DECAY_FACTOR
        (cfgDecay "exponential").LEARNING_RATE_STAIRCASE
        "exponential_decay_learning_rate") ∧
    configure_learning_rate (cfgDecay "fixed") =
      .ok (.constant (cfgDecay "fixed").INITIAL_LEARNING_RATE "fixed_learning_rate") ∧
    configure_learning_rate (cfgDecay "polynomial") =
      .ok (.polynomialDecay (cfgDecay "polynomial").INITIAL_LEARNING_RATE
        (pyInt (((cfgDecay "polynomial").NUM_TRAIN_EXAMPLES : ℚ) /
          ((cfgDecay "polynomial").BATCH_SIZE : ℚ) *
          (cfgDecay "polynomial").NUM_EPOCHS_PER_DELAY))
        (cfgDecay "polynomial").END_LEARNING_RATE 1 false
        "polynomial_decay_learning_rate") :=
  ⟨by decide,
   (configure_learning_rate_maps (cfgDecay "exponential") (by decide)).1 rfl,
   (configure_learning_rate_maps (cfgDecay "fixed") (by decide)).2.1 rfl,
   (configure_learning_rate_maps (cfgDecay "polynomial") (by decide)).2.2 rfl⟩

/-- Counterexample to C1 as stated ("for every configuration"): with
`BATCH_SIZE = 0` and decay type `fixed`, `_configure_learning_rate` raises
`ZeroDivisionError` instead of returning the constant tensor. -/
theorem configure_learning_rate_zero_batch_counterexample :
    cfgZeroFixed.LEARNING_RATE_DECAY_TYPE = "fixed" ∧
    configure_learning_rate cfgZeroFixed = .error .zeroDivisionError ∧
    configure_learning_rate cfgZeroFixed ≠
      .ok (.constant cfgZeroFixed.INITIAL_LEARNING_RATE "fixed_learning_rate") := by
  refine ⟨rfl, rfl, ?_⟩
  decide

/-- C10: `decay_steps` is evaluated before the branch on the decay type, so
for every configuration — `fixed` included — `_configure_learning_rate`
raises `ZeroDivisionError` when `BATCH_SIZE = 0`, returns a result only when
`BATCH_SIZE ≠ 0`, and under the precondition `BATCH_SIZE ≠ 0` the
division-by-zero outcome is unreachable. -/
theorem configure_learning_rate_batch_size_zero {ι : Type} (cfg : Config ι) :
    (cfg.BATCH_SIZE = 0 → configure_learning_rate cfg = .error .zeroDivisionError) ∧
    (∀ r : LearningRate, configure_learning_rate cfg = .ok r → cfg.BATCH_SIZE ≠ 0) ∧
    (cfg.BATCH_SIZE ≠ 0 →
      configure_learning_rate cfg ≠ .error .zeroDivisionError) := by
  refine ⟨fun h => by simp [configure_learning_rate, h], fun r hr h0 => ?_, fun h hc => ?_⟩
  · rw [(by simp [configure_learning_rate, h0] :
      configure_learning_rate cfg = .error .zeroDivisionError)] at hr
    exact Except.noConfusion hr
  · unfold configure_learning_rate at hc
    rw [if_neg h] at hc
    by_cases h1 : cfg.LEARNING_RATE_DECAY_TYPE = "exponential" <;>
      by_cases h2 : cfg.LEARNING_RATE_DECAY_TYPE = "fixed" <;>
      by_cases h3 : cfg.LEARNING_RATE_DECAY_TYPE = "polynomial" <;>
      simp [h1, h2, h3] at hc

/-- Witness for C10: a zero-batch configuration with decay type `fixed`
raises `ZeroDivisionError`; the sample configuration with `BATCH_SIZE = 32`
does not, and its successful result certifies `BATCH_SIZE ≠ 0`. -/
theorem configure_learning_rate_batch_size_zero_witness :
    cfgZeroFixed.BATCH_SIZE = 0 ∧
    configure_learning_rate cfgZeroFixed = .error .zeroDivisionError ∧
    configure_learning_rate baseCfg ≠ .error .zeroDivisionError ∧
    baseCfg.BATCH_SIZE ≠ 0 :=
  ⟨rfl, (configure_learning_rate_batch_size_zero cfgZeroFixed).1 rfl,
   (configure_learning_rate_batch_size_zero baseCfg).2.2 (by decide),
   (configure_learning_rate_batch_size_zero baseCfg).2.1
     (.exponentialDecay baseCfg.INITIAL_LEARNING_RATE
       (pyInt ((baseCfg.NUM_TRAIN_EXAMPLES : ℚ) / (baseCfg.BATCH_SIZE : ℚ) *
         baseCfg.NUM_EPOCHS_PER_DELAY))
       baseCfg.LEARNING_RATE_DECAY_FACTOR baseCfg.LEARNING_RATE_STAIRCASE
       "exponential_decay_learning_rate")
     rfl⟩

/-- C2: `_configure_optimizer` maps each of the seven recognized optimizer
strings to the expected framework optimizer constructor with exactly the
hyperparameter fields of the configuration that the source passes to it, and
returns the constructed optimizer. -/
theorem configure_optimizer_maps {ι α : Type} (cfg : Config ι) (lr : α) :
    (cfg.OPTIMIZER = "adadelta" → configure_optimizer lr cfg =
      .ok (.adadelta lr cfg.ADADELTA_RHO cfg.OPTIMIZER_EPSILON)) ∧
    (cfg.OPTIMIZER = "adagrad" → configure_optimizer lr cfg =
      .ok (.adagrad lr cfg.ADAGRAD_INITIAL_ACCUMULATOR_VALUE)) ∧
    (cfg.OPTIMIZER = "adam" → configure_optimizer lr cfg =
      .ok (.adam lr cfg.ADAM_BETA1 cfg.ADAM_BETA2 cfg.OPTIMIZER_EPSILON)) ∧
    (cfg.OPTIMIZER = "ftrl" → configure_optimizer lr cfg =
      .ok (.ftrl lr cfg.FTRL_LEARNING_RATE_POWER cfg.FTRL_INITIAL_ACCUMULATOR_VALUE
        cfg.FTRL_L1 cfg.FTRL_L2)) ∧
    (cfg.OPTIMIZER = "momentum" → configure_optimizer lr cfg =
      .ok (.momentum lr cfg.MOMENTUM "Momentum")) ∧
    (cfg.OPTIMIZER = "rmsprop" → configure_optimizer lr cfg =
      .ok (.rmsprop lr cfg.RMSPROP_DECAY cfg.MOMENTUM cfg.OPTIMIZER_EPSILON)) ∧
    (cfg.OPTIMIZER = "sgd" → configure_optimizer lr cfg =
      .ok (.gradientDescent lr)) := by
  refine ⟨fun h => ?_, fun h => ?_, fun h => ?_, fun h => ?_, fun h => ?_,
    fun h => ?_, fun h => ?_⟩ <;> simp [configure_optimizer, h]

/-- Witness for C2: the seven recognized optimizer strings on concrete
configurations with learning rate `1`. -/
theorem configure_optimizer_maps_witness :
    configure_optimizer (1 : ℚ) (cfgOpt "adadelta") =
      .ok (.adadelta 1 (cfgOpt "adadelta").ADADELTA_RHO
        (cfgOpt "adadelta").OPTIMIZER_EPSILON) ∧
    configure_optimizer (1 : ℚ) (cfgOpt "adagrad") =
      .ok (.adagrad 1 (cfgOpt "adagrad").ADAGRAD_INITIAL_ACCUMULATOR_VALUE) ∧
    configure_optimizer (1 : ℚ) (cfgOpt "adam") =
      .ok (.adam 1 (cfgOpt "adam").ADAM_BETA1 (cfgOpt "adam").ADAM_BETA2
        (cfgOpt "adam").OPTIMIZER_EPSILON) ∧
    configure_optimizer (1 : ℚ) (cfgOpt "ftrl") =
      .ok (.ftrl 1 (cfgOpt "ftrl").FTRL_LEARNING_RATE_POWER
        (cfgOpt "ftrl").FTRL_INITIAL_ACCUMULATOR_VALUE
        (cfgOpt "ftrl").FTRL_L1 (cfgOpt "ftrl").FTRL_L2) ∧
    configure_optimizer (1 : ℚ) (cfgOpt "momentum") =
      .ok (.momentum 1 (cfgOpt "momentum").MOMENTUM "Momentum") ∧
    configure_optimizer (1 : ℚ) (cfgOpt "rmsprop") =
      .ok (.rmsprop 1 (cfgOpt "rmsprop").RMSPROP_DECAY
        (cfgOpt "rmsprop").MOMENTUM (cfgOpt "rmsprop").OPTIMIZER_EPSILON) ∧
    configure_optimizer (1 : ℚ) (cfgOpt "sgd") = .ok (.gradientDescent 1) :=
  ⟨(configure_optimizer_maps (cfgOpt "adadelta") (1 : ℚ)).1 rfl,
   (configure_optimizer_maps (cfgOpt "adagrad") (1 : ℚ)).2.1 rfl,
   (configure_optimizer_maps (cfgOpt "adam") (1 : ℚ)).2.2.1 rfl,
   (configure_optimizer_maps (cfgOpt "ftrl") (1 : ℚ)).2.2.2.1 rfl,
   (configure_optimizer_maps (cfgOpt "momentum") (1 : ℚ)).2.2.2.2.1 rfl,
   (configure_optimizer_maps (cfgOpt "rmsprop") (1 : ℚ)).2.2.2.2.2.1 rfl,
   (configure_optimizer_maps (cfgOpt "sgd") (1 : ℚ)).2.2.2.2.2.2 rfl⟩

/-- C3 (amended): provided `BATCH_SIZE ≠ 0`, `_configure_learning_rate`
raises a `ValueError` iff `LEARNING_RATE_DECAY_TYPE` is not one of
`{exponential, fixed, polynomial}` (with `BATCH_SIZE = 0` the division on the
first line raises `ZeroDivisionError` before any `ValueError` can be
reached); `_configure_optimizer` raises a `ValueError` iff `OPTIMIZER` is not
one of the seven recognized strings; in each `ValueError` case the raise
happens with the offending string value among the exception arguments, and no
result is returned. -/
theorem configure_error_iff {ι α : Type} (cfg : Config ι) (lr : α) :
    (cfg.BATCH_SIZE ≠ 0 →
      (((∃ f v, configure_learning_rate cfg = .error (.valueError f v)) ↔
          cfg.LEARNING_RATE_DECAY_TYPE ∉
            (["exponential", "fixed", "polynomial"] : List String)) ∧
        (cfg.LEARNING_RATE_DECAY_TYPE ∉
            (["exponential", "fixed", "polynomial"] : List String) →
          configure_learning_rate cfg =
            .error (.valueError "learning_rate_decay_type [%s] was not recognized"
              cfg.LEARNING_RATE_DECAY_TYPE)))) ∧
    (((∃ f v, configure_optimizer lr cfg = .error (.valueError f v)) ↔
        cfg.OPTIMIZER ∉
          (["adadelta", "adagrad", "adam", "ftrl", "momentum", "rmsprop", "sgd"] :
            List String)) ∧
      (cfg.OPTIMIZER ∉
          (["adadelta", "adagrad", "adam", "ftrl", "momentum", "rmsprop", "sgd"] :
            List String) →
        configure_optimizer lr cfg =
          .error (.valueError "Optimizer [%s] was not recognized" cfg.OPTIMIZER))) := by
  constructor
  · intro hb
    unfold configure_learning_rate
    rw [if_neg hb]
    by_cases h1 : cfg.LEARNING_RATE_DECAY_TYPE = "exponential" <;>
      by_cases h2 : cfg.LEARNING_RATE_DECAY_TYPE = "fixed" <;>
      by_cases h3 : cfg.LEARNING_RATE_DECAY_TYPE = "polynomial" <;>
      simp [h1, h2, h3]
  · unfold configure_optimizer
    by_cases h1 : cfg.OPTIMIZER = "adadelta" <;>
      by_cases h2 : cfg.OPTIMIZER = "adagrad" <;>
      by_cases h3 : cfg.OPTIMIZER = "adam" <;>
      by_cases h4 : cfg.OPTIMIZER = "ftrl" <;>
      by_cases h5 : cfg.OPTIMIZER = "momentum" <;>
      by_cases h6 : cfg.OPTIMIZER = "rmsprop" <;>
      by_cases h7 : cfg.OPTIMIZER = "sgd" <;>
      simp [h1, h2, h3, h4, h5, h6, h7]

/-- Witness for C3: a configuration with unrecognized decay type `foo` and
unrecognized optimizer `bar` (and `BATCH_SIZE = 32`) makes both functions
raise `ValueError` carrying the offending string. -/
theorem configure_error_iff_witness :
    cfgBadStrings.BATCH_SIZE ≠ 0 ∧
    cfgBadStrings.LEARNING_RATE_DECAY_TYPE ∉
      (["exponential", "fixed", "polynomial"] : List String) ∧
    cfgBadStrings.OPTIMIZER ∉
      (["adadelta", "adagrad", "adam", "ftrl", "momentum", "rmsprop", "sgd"] :
        List String) ∧
    configure_learning_rate cfgBadStrings =
      .error (.valueError "learning_rate_decay_type [%s] was not recognized"
        cfgBadStrings.LEARNING_RATE_DECAY_TYPE) ∧
    configure_optimizer (1 : ℚ) cfgBadStrings =
      .error (.valueError "Optimizer [%s] was not recognized"
        cfgBadStrings.OPTIMIZER) :=
  ⟨by decide, by decide, by decide,
   ((configure_error_iff cfgBadStrings (1 : ℚ)).1 (by decide)).2 (by decide),
   (configure_error_iff cfgBadStrings (1 : ℚ)).2.2 (by decide)⟩

/-- Counterexample to C3 as stated: with `BATCH_SIZE = 0` and the
unrecognized decay type `unknown`, `_configure_learning_rate` raises
`ZeroDivisionError`, not the `ValueError` the claim requires. -/
theorem configure_error_iff_counterexample :
    cfgZeroBad.LEARNING_RATE_DECAY_TYPE ∉
      (["exponential", "fixed", "polynomial"] : List String) ∧
    configure_learning_rate cfgZeroBad = .error .zeroDivisionError ∧
    configure_learning_rate cfgZeroBad ≠
      .error (.valueError "learning_rate_decay_type [%s] was not recognized"
        cfgZeroBad.LEARNING_RATE_DECAY_TYPE) := by
  refine ⟨by decide, rfl, ?_⟩
  intro hc
  exact PyErr.noConfusion (Except.error.inj hc)

/-- C4: `get_trainable_variables` returns the full trainable-variable list
when `trainable_scopes` is `None`, and otherwise its result holds exactly the
trainable variables whose names match one of the given scopes as a name
prefix (each scope stripped of whitespace): nothing outside the scopes, no
matching variable omitted. -/
theorem get_trainable_variables_spec (trainable_variables : List String) :
    get_trainable_variables trainable_variables none = trainable_variables ∧
    ∀ (scopes : List String) (v : String),
      v ∈ get_trainable_variables trainable_variables (some scopes) ↔
        v ∈ trainable_variables ∧
          ∃ scope ∈ scopes, pyStartswith v (pyStrip scope) = true := by
  refine ⟨rfl, fun scopes v => ?_⟩
  simp only [get_trainable_variables, List.mem_flatMap, List.mem_filter,
    List.mem_map]
  constructor
  · rintro ⟨s, ⟨scope, hscope, rfl⟩, hv, hs⟩
    exact ⟨hv, scope, hscope, hs⟩
  · rintro ⟨hv, scope, hscope, hs⟩
    exact ⟨pyStrip scope, ⟨scope, hscope, rfl⟩, hv, hs⟩

/-- C5: when `get_init_function` performs a restore, the variables handed to
`slim.assign_from_checkpoint_fn` are exactly the model variables whose op
names do not start with any of the given `checkpoint_exclude_scopes` (each
scope stripped of whitespace): every variable matching some exclusion is
left out, every other model variable is restored. -/
theorem get_init_function_restores (w : World) (logdir path : String)
    (excl : Option (List String)) (fn : InitFn)
    (h : get_init_function w logdir (some path) excl = .ok (some fn)) :
    ∀ v, v ∈ fn.variables_to_restore ↔
      v ∈ w.model_variables ∧
        ∀ e ∈ (excl.getD []).map pyStrip, pyStartswith v e = false := by
  intro v
  by_cases hl : (w.latest_checkpoint logdir).isSome = true
  · rw [show get_init_function w logdir (some path) excl = .ok none by
      simp [get_init_function, hl]] at h
    simp at h
  · have hvars : ∀ cp : String,
        (get_init_function w logdir (some path) excl = .ok (some ⟨cp,
          w.model_variables.filter fun x =>
            !(((excl.getD []).map pyStrip).any fun e => pyStartswith x e),
          false⟩)) →
        (v ∈ fn.variables_to_restore ↔
          v ∈ w.model_variables ∧
            ∀ e ∈ (excl.getD []).map pyStrip, pyStartswith v e = false) := by
      intro cp hres
      rw [hres] at h
      injection h with h1
      injection h1 with h2
      rw [← h2]
      simp [List.mem_filter, List.any_eq_true]
    by_cases hd : w.isDir path = true
    · rcases hcp : w.latest_checkpoint path with _ | cp
      · rw [show get_init_function w logdir (some path) excl =
            .error (.valueError "No model checkpoint file found in directory %s" path) by
          cases excl <;> simp [get_init_function, hl, hd, hcp]] at h
        exact Except.noConfusion h
      · exact hvars cp (by cases excl <;> simp [get_init_function, hl, hd, hcp])
    · exact hvars path (by cases excl <;> simp [get_init_function, hl, hd])

/-- Witness for C5: from environment `wPre` (checkpoint in directory `pre`,
none in `logs`) with exclusion scope `logits`, the restore keeps
`conv1/weights` and drops `logits/weights`. -/
theorem get_init_function_restores_witness :
    get_init_function wPre "logs" (some "pre") (some ["logits"]) =
      .ok (some ⟨"pre/model.ckpt-10", ["conv1/weights", "conv1/biases"], false⟩) ∧
    (("conv1/weights" : String) ∈
        (InitFn.mk "pre/model.ckpt-10" ["conv1/weights", "conv1/biases"]
          false).variables_to_restore ↔
      ("conv1/weights" : String) ∈ wPre.model_variables ∧
        ∀ e ∈ ((some ["logits"] : Option (List String)).getD []).map pyStrip,
          pyStartswith "conv1/weights" e = false) ∧
    ("logits/weights" : String) ∉
      (InitFn.mk "pre/model.ckpt-10" ["conv1/weights", "conv1/biases"]
        false).variables_to_restore :=
  ⟨by decide,
   get_init_function_restores wPre "logs" "pre" (some ["logits"])
     (InitFn.mk "pre/model.ckpt-10" ["conv1/weights", "conv1/biases"] false)
     (by decide) "conv1/weights",
   by decide⟩

/-- C6: if `pretrained_model_path` is a directory in which
`tf.train.latest_checkpoint` finds no checkpoint — and no checkpoint already
exists in `logdir` — `get_init_function` raises a `ValueError` naming that
directory. -/
theorem get_init_function_missing_ckpt (w : World) (logdir path : String)
    (excl : Option (List String))
    (h1 : w.latest_checkpoint logdir = none)
    (h2 : w.isDir path = true)
    (h3 : w.latest_checkpoint path = none) :
    get_init_function w logdir (some path) excl =
      .error (.valueError "No model checkpoint file found in directory %s" path) := by
  cases excl <;> simp [get_init_function, h1, h2, h3]

/-- Witness for C6: in environment `wEmptyDir`, `emptydir` is a directory
with no checkpoint and `logs` holds none either, so the call raises. -/
theorem get_init_function_missing_ckpt_witness :
    wEmptyDir.latest_checkpoint "logs" = none ∧
    wEmptyDir.isDir "emptydir" = true ∧
    wEmptyDir.latest_checkpoint "emptydir" = none ∧
    get_init_function wEmptyDir "logs" (some "emptydir") none =
      .error (.valueError "No model checkpoint file found in directory %s"
        "emptydir") :=
  ⟨rfl, by decide, rfl,
   get_init_function_missing_ckpt wEmptyDir "logs" "emptydir" none rfl
     (by decide) rfl⟩

/-- C9: `get_init_function` returns `None` — no restore, no error — whenever
`pretrained_model_path` is `None`, and whenever a checkpoint already exists
in `logdir`; in the latter case this holds for every pretrained path, even a
directory with no checkpoint that would otherwise raise. -/
theorem get_init_function_none_cases :
    (∀ (w : World) (logdir : String) (excl : Option (List String)),
      get_init_function w logdir none excl = .ok none) ∧
    (∀ (w : World) (logdir path : String) (excl : Option (List String)),
      (w.latest_checkpoint logdir).isSome = true →
      get_init_function w logdir (some path) excl = .ok none) := by
  refine ⟨fun w logdir excl => rfl, fun w logdir path excl h => ?_⟩
  simp [get_init_function, h]

/-- Witness for C9: in environment `wLogCkpt` the log directory already holds
a checkpoint, so the pretrained path `emptydir` — a directory with no
checkpoint, which would otherwise raise — is silently ignored; and a `None`
pretrained path returns `None`. -/
theorem get_init_function_none_cases_witness :
    get_init_function wLogCkpt "logs" none (some ["a"]) = .ok none ∧
    (wLogCkpt.latest_checkpoint "logs").isSome = true ∧
    wLogCkpt.isDir "emptydir" = true ∧
    wLogCkpt.latest_checkpoint "emptydir" = none ∧
    get_init_function wLogCkpt "logs" (some "emptydir") none = .ok none :=
  ⟨get_init_function_none_cases.1 wLogCkpt "logs" (some ["a"]),
   by decide, by decide, rfl,
   get_init_function_none_cases.2 wLogCkpt "logs" "emptydir" none (by decide)⟩

open BuildStep in
/-- Counterexample to C7 as stated: `train` does not build the graph in the
sequence input pipeline → network → loss → optimizer → moving-average
tracking → checkpointing.  The optimizer is configured (line 219) before the
input pipeline (line 221), and even reading "optimizer" as the train-op
creation (line 279), that happens after moving-average tracking (line 275);
both readings of the claimed order fail on the trace of `train`. -/
theorem train_build_order_counterexample :
    occursInOrder [buildInputPipeline, buildNetwork, buildLoss,
      configureOptimizer, applyMovingAverages, createSaver,
      delegateToSlimTraining] trainBuildTrace = false ∧
    occursInOrder [buildInputPipeline, buildNetwork, buildLoss,
      createTrainOp, applyMovingAverages, createSaver,
      delegateToSlimTraining] trainBuildTrace = false := by
  constructor <;> rfl

open BuildStep in
/-- C7 (amended): `train` configures the optimizer (and its learning-rate
schedule) first, and then builds the graph in the fixed sequence input
pipeline → network → loss → moving-average tracking → train op →
checkpointing, before delegating the training loop to
`slim.learning.train`. -/
theorem train_build_order :
    occursInOrder [configureLearningRate, configureOptimizer,
      buildInputPipeline, buildNetwork, buildLoss, applyMovingAverages,
      createTrainOp, createSaver, delegateToSlimTraining]
      trainBuildTrace = true := by
  rfl

/-- C8: each optional command-line override (step count, learning-rate decay
type, learning rate, batch size, model name) replaces the corresponding
configuration field exactly when it is supplied, the field keeps its parsed
value when the override is absent, and every configuration field without a
corresponding override is unchanged. -/
theorem main_overrides {ι : Type} (cfg : Config ι) (args : Args) :
    (applyOverrides cfg args).NUM_TRAIN_ITERATIONS =
      args.max_number_of_steps.getD cfg.NUM_TRAIN_ITERATIONS ∧
    (applyOverrides cfg args).LEARNING_RATE_DECAY_TYPE =
      args.learning_rate_decay_type.getD cfg.LEARNING_RATE_DECAY_TYPE ∧
    (applyOverrides cfg args).INITIAL_LEARNING_RATE =
      args.learning_rate.getD cfg.INITIAL_LEARNING_RATE ∧
    (applyOverrides cfg args).BATCH_SIZE =
      args.batch_size.getD cfg.BATCH_SIZE ∧
    (applyOverrides cfg args).MODEL_NAME =
      args.model_name.getD cfg.MODEL_NAME ∧
    (applyOverrides cfg args).NUM_TRAIN_EXAMPLES = cfg.NUM_TRAIN_EXAMPLES ∧
    (applyOverrides cfg args).NUM_EPOCHS_PER_DELAY = cfg.NUM_EPOCHS_PER_DELAY ∧
    (applyOverrides cfg args).LEARNING_RATE_DECAY_FACTOR =
      cfg.LEARNING_RATE_DECAY_FACTOR ∧
    (applyOverrides cfg args).LEARNING_RATE_STAIRCASE =
      cfg.LEARNING_RATE_STAIRCASE ∧
    (applyOverrides cfg args).END_LEARNING_RATE = cfg.END_LEARNING_RATE ∧
    (applyOverrides cfg args).OPTIMIZER = cfg.OPTIMIZER ∧
    (applyOverrides cfg args).ADADELTA_RHO = cfg.ADADELTA_RHO ∧
    (applyOverrides cfg args).OPTIMIZER_EPSILON = cfg.OPTIMIZER_EPSILON ∧
    (applyOverrides cfg args).ADAGRAD_INITIAL_ACCUMULATOR_VALUE =
      cfg.ADAGRAD_INITIAL_ACCUMULATOR_VALUE ∧
    (applyOverrides cfg args).ADAM_BETA1 = cfg.ADAM_BETA1 ∧
    (applyOverrides cfg args).ADAM_BETA2 = cfg.ADAM_BETA2 ∧
    (applyOverrides cfg args).FTRL_LEARNING_RATE_POWER =
      cfg.FTRL_LEARNING_RATE_POWER ∧
    (applyOverrides cfg args).FTRL_INITIAL_ACCUMULATOR_VALUE =
      cfg.FTRL_INITIAL_ACCUMULATOR_VALUE ∧
    (applyOverrides cfg args).FTRL_L1 = cfg.FTRL_L1 ∧
    (applyOverrides cfg args).FTRL_L2 = cfg.FTRL_L2 ∧
    (applyOverrides cfg args).MOMENTUM = cfg.MOMENTUM ∧
    (applyOverrides cfg args).RMSPROP_DECAY = cfg.RMSPROP_DECAY ∧
    (applyOverrides cfg args).IMAGE_PROCESSING = cfg.IMAGE_PROCESSING ∧
    (applyOverrides cfg args).NUM_INPUT_THREADS = cfg.NUM_INPUT_THREADS ∧
    (applyOverrides cfg args).SHUFFLE_QUEUE = cfg.SHUFFLE_QUEUE ∧
    (applyOverrides cfg args).RANDOM_SEED = cfg.RANDOM_SEED ∧
    (applyOverrides cfg args).QUEUE_CAPACITY = cfg.QUEUE_CAPACITY ∧
    (applyOverrides cfg args).QUEUE_MIN = cfg.QUEUE_MIN ∧
    (applyOverrides cfg args).NUM_CLASSES = cfg.NUM_CLASSES ∧
    (applyOverrides cfg args).WEIGHT_DECAY = cfg.WEIGHT_DECAY ∧
    (applyOverrides cfg args).BATCHNORM_MOVING_AVERAGE_DECAY =
      cfg.BATCHNORM_MOVING_AVERAGE_DECAY ∧
    (applyOverrides cfg args).BATCHNORM_EPSILON = cfg.BATCHNORM_EPSILON ∧
    (applyOverrides cfg args).DROPOUT_KEEP_PROB = cfg.DROPOUT_KEEP_PROB ∧
    (applyOverrides cfg args).MOVING_AVERAGE_DECAY = cfg.MOVING_AVERAGE_DECAY ∧
    (applyOverrides cfg args).SESSION_CONFIG = cfg.SESSION_CONFIG ∧
    (applyOverrides cfg args).MAX_TO_KEEP = cfg.MAX_TO_KEEP ∧
    (applyOverrides cfg args).KEEP_CHECKPOINT_EVERY_N_HOURS =
      cfg.KEEP_CHECKPOINT_EVERY_N_HOURS ∧
    (applyOverrides cfg args).SAVE_SUMMARY_SECS = cfg.SAVE_SUMMARY_SECS ∧
    (applyOverrides cfg args).SAVE_INTERVAL_SECS = cfg.SAVE_INTERVAL_SECS ∧
    (applyOverrides cfg args).LOG_EVERY_N_STEPS = cfg.LOG_EVERY_N_STEPS := by
  obtain ⟨tf, ld, cf, pm, ts, ces, m1, m2, m3, m4, m5⟩ := args
  cases m1 <;> cases m2 <;> cases m3 <;> cases m4 <;> cases m5 <;>
    simp [applyOverrides]

end TfClassification
